import Mathlib

/-!
# Verification of the SIWP delegated-session authentication engine

Shallow embedding of `use-ic-siwp-identity` (the second, current variant of
`src/index.tsx`, together with `local-storage.ts`, `siwp-provider.tsx` and the
service interface).  TypeScript values are modelled as follows: byte buffers
(`Uint8Array`, DER keys) become `List Nat` with every entry `< 256`; JS strings
become `String` (hex-encoded JSON fields become `List Char` so that the
character-level codec is explicit); `Error` objects are identified with their
message strings; `undefined`-able fields become `Option`; the React
`useState`/`setState` pair becomes an explicit shallow-merge transition
function on a `State` record, following the design note of the spec.
-/

namespace Siwp

/-! ## Service interface (`service.interface.ts`) -/

/-- `Delegation` from `service.interface.ts`: pubkey, optional targets,
expiration. Principals in `targets` are byte blobs. -/
structure Delegation where
  pubkey : List Nat
  targets : Option (List (List Nat))
  expiration : Nat
deriving Repr, DecidableEq

/-- `SignedDelegation` from `service.interface.ts`. -/
structure SignedDelegation where
  signature : List Nat
  delegation : Delegation
deriving Repr, DecidableEq

/-- `LoginDetails` from `service.interface.ts`. -/
structure LoginDetails where
  user_canister_pubkey : List Nat
  expiration : Nat
deriving Repr, DecidableEq

/-- `BindingDelegationDeatils` from `service.interface.ts` (sic). -/
structure BindingDelegationDeatils where
  username : String
  login_details : LoginDetails
deriving Repr, DecidableEq

/-- `LoginResponse = { Ok: BindingDelegationDeatils } | { Err: string }`. -/
inductive LoginResponse where
  | Ok (v : BindingDelegationDeatils)
  | Err (e : String)
deriving Repr, DecidableEq

/-- `GetDelegationResponse = { Ok: SignedDelegation } | { Err: string }`. -/
inductive GetDelegationResponse where
  | Ok (v : SignedDelegation)
  | Err (e : String)
deriving Repr, DecidableEq

/-- `StartAuthResponse = string | [string, string]`: the settled value of
`callPrepareLogin` — either a bare webauthn assertion (identified mode) or an
assertion together with an authentication-state token (discoverable mode). -/
inductive StartAuthResponse where
  | single (s : String)
  | pair (a b : String)
deriving Repr, DecidableEq

/-! ## Session keys and the delegation chain (external `@dfinity/identity`
values, modelled at the byte level) -/

/-- An `Ed25519KeyIdentity`: the DER-encoded public key together with the
secret key, both as byte lists. -/
structure Ed25519KeyPair where
  publicKey : List Nat
  secretKey : List Nat
deriving Repr, DecidableEq

/-- A `DelegationChain`: an ordered list of signed delegations plus the root
public key the chain is rooted at. -/
structure DelegationChainM where
  delegations : List SignedDelegation
  publicKey : List Nat
deriving Repr, DecidableEq

/-- A `DelegationIdentity`, i.e. `DelegationIdentity.fromDelegation(key, chain)`:
the session keypair (the only signing key) plus the chain vouching for it. -/
structure DelegationIdentityM where
  sessionKey : Ed25519KeyPair
  chain : DelegationChainM
deriving Repr, DecidableEq

/-! ## Hex codec

`Ed25519KeyIdentity.toJSON` / `DelegationChain.toJSON` serialize byte buffers
as lowercase hex strings; `fromJSON` decodes them.  The codec is modelled at
the character level so that the persist/restore round trip is a real theorem
about serialization. -/

/-- Lowercase hex digit for a value `< 16`. -/
def hexDigit (n : Nat) : Char :=
  if n < 10 then Char.ofNat (48 + n) else Char.ofNat (87 + n)

/-- Numeric value of a hex digit character, `none` for non-hex characters. -/
def hexVal (c : Char) : Option Nat :=
  if 48 ≤ c.toNat ∧ c.toNat ≤ 57 then some (c.toNat - 48)
  else if 97 ≤ c.toNat ∧ c.toNat ≤ 102 then some (c.toNat - 87)
  else none

/-- Hex-encode a byte list, two characters per byte. -/
def bytesToHex : List Nat → List Char
  | [] => []
  | b :: bs => hexDigit (b / 16) :: hexDigit (b % 16) :: bytesToHex bs

/-- Decode a hex character list back to bytes; fails on a non-hex character or
an odd-length input. -/
def hexToBytes : List Char → Option (List Nat)
  | [] => some []
  | c1 :: c2 :: rest =>
    match hexVal c1, hexVal c2, hexToBytes rest with
    | some h, some l, some bs => some ((16 * h + l) :: bs)
    | _, _, _ => none
  | [_] => none

/-- A byte list is valid when every entry fits in one byte. -/
def ValidBytes (bs : List Nat) : Prop := ∀ b ∈ bs, b < 256

instance : DecidablePred ValidBytes := fun bs =>
  inferInstanceAs (Decidable (∀ b ∈ bs, b < 256))

theorem hexVal_hexDigit (n : Nat) (h : n < 16) : hexVal (hexDigit n) = some n := by
  interval_cases n <;> rfl

theorem hexToBytes_bytesToHex (bs : List Nat) (h : ValidBytes bs) :
    hexToBytes (bytesToHex bs) = some bs := by
  induction bs with
  | nil => rfl
  | cons b rest ih =>
    have hb : b < 256 := h b (List.mem_cons_self b rest)
    have hrest : ValidBytes rest := fun x hx => h x (List.mem_cons_of_mem b hx)
    have hdiv : b / 16 < 16 := by omega
    have hmod : b % 16 < 16 := by omega
    have hb' : 16 * (b / 16) + b % 16 = b := by omega
    simp only [bytesToHex, hexToBytes, hexVal_hexDigit _ hdiv, hexVal_hexDigit _ hmod,
      ih hrest, hb']

/-! ## JSON forms of keys and chains

`Ed25519KeyIdentity.toJSON` yields the `[publicKeyHex, secretKeyHex]` pair;
`DelegationChain.toJSON` yields `{delegations: [...], publicKey: hex}` with the
byte fields of every signed delegation hex-encoded.  Stored JSON is modelled by
these record types, whose hex fields may hold arbitrary characters, so that an
undeserializable stored record is expressible. -/

/-- JSON form of an `Ed25519KeyIdentity`. -/
structure Ed25519KeyPairJson where
  publicKey : List Char
  secretKey : List Char
deriving Repr, DecidableEq

/-- JSON form of one signed delegation inside a chain. -/
structure SignedDelegationJson where
  pubkey : List Char
  targets : Option (List (List Nat))
  expiration : Nat
  signature : List Char
deriving Repr, DecidableEq

/-- JSON form of a `DelegationChain`. -/
structure DelegationChainJson where
  delegations : List SignedDelegationJson
  publicKey : List Char
deriving Repr, DecidableEq

/-- `Ed25519KeyIdentity.toJSON`. -/
def keyToJSON (k : Ed25519KeyPair) : Ed25519KeyPairJson :=
  ⟨bytesToHex k.publicKey, bytesToHex k.secretKey⟩

/-- `Ed25519KeyIdentity.fromJSON`; fails on malformed hex. -/
def keyFromJSON (j : Ed25519KeyPairJson) : Option Ed25519KeyPair :=
  match hexToBytes j.publicKey, hexToBytes j.secretKey with
  | some pk, some sk => some ⟨pk, sk⟩
  | _, _ => none

/-- JSON encoding of one signed delegation. -/
def signedDelegationToJSON (sd : SignedDelegation) : SignedDelegationJson :=
  ⟨bytesToHex sd.delegation.pubkey, sd.delegation.targets, sd.delegation.expiration,
    bytesToHex sd.signature⟩

/-- JSON decoding of one signed delegation; fails on malformed hex. -/
def signedDelegationFromJSON (j : SignedDelegationJson) : Option SignedDelegation :=
  match hexToBytes j.pubkey, hexToBytes j.signature with
  | some pk, some sg => some ⟨sg, ⟨pk, j.targets, j.expiration⟩⟩
  | _, _ => none

/-- Decode each element of a JSON array, failing if any element fails. -/
def mapOption (f : α → Option β) : List α → Option (List β)
  | [] => some []
  | a :: l =>
    match f a, mapOption f l with
    | some b, some bl => some (b :: bl)
    | _, _ => none

/-- `DelegationChain.toJSON`. -/
def chainToJSON (c : DelegationChainM) : DelegationChainJson :=
  ⟨c.delegations.map signedDelegationToJSON, bytesToHex c.publicKey⟩

/-- `DelegationChain.fromJSON`; fails on malformed hex anywhere in the chain. -/
def chainFromJSON (j : DelegationChainJson) : Option DelegationChainM :=
  match mapOption signedDelegationFromJSON j.delegations, hexToBytes j.publicKey with
  | some ds, some pk => some ⟨ds, pk⟩
  | _, _ => none

/-- All byte fields of a signed delegation are valid bytes. -/
def ValidSignedDelegation (sd : SignedDelegation) : Prop :=
  ValidBytes sd.delegation.pubkey ∧ ValidBytes sd.signature

/-- All byte fields of a keypair are valid bytes. -/
def ValidKeyPair (k : Ed25519KeyPair) : Prop :=
  ValidBytes k.publicKey ∧ ValidBytes k.secretKey

/-- All byte fields of a chain are valid bytes. -/
def ValidChain (c : DelegationChainM) : Prop :=
  (∀ sd ∈ c.delegations, ValidSignedDelegation sd) ∧ ValidBytes c.publicKey

instance : DecidablePred ValidSignedDelegation := fun sd =>
  inferInstanceAs (Decidable (ValidBytes sd.delegation.pubkey ∧ ValidBytes sd.signature))

instance : DecidablePred ValidKeyPair := fun k =>
  inferInstanceAs (Decidable (ValidBytes k.publicKey ∧ ValidBytes k.secretKey))

instance : DecidablePred ValidChain := fun c =>
  inferInstanceAs (Decidable ((∀ sd ∈ c.delegations, ValidSignedDelegation sd) ∧
    ValidBytes c.publicKey))

theorem keyFromJSON_keyToJSON (k : Ed25519KeyPair) (h : ValidKeyPair k) :
    keyFromJSON (keyToJSON k) = some k := by
  simp only [keyFromJSON, keyToJSON, hexToBytes_bytesToHex _ h.1, hexToBytes_bytesToHex _ h.2]

theorem signedDelegationFromJSON_toJSON (sd : SignedDelegation)
    (h : ValidSignedDelegation sd) :
    signedDelegationFromJSON (signedDelegationToJSON sd) = some sd := by
  simp only [signedDelegationFromJSON, signedDelegationToJSON,
    hexToBytes_bytesToHex _ h.1, hexToBytes_bytesToHex _ h.2]

theorem mapOption_signedDelegation (l : List SignedDelegation)
    (h : ∀ sd ∈ l, ValidSignedDelegation sd) :
    mapOption signedDelegationFromJSON (l.map signedDelegationToJSON) = some l := by
  induction l with
  | nil => rfl
  | cons sd rest ih =>
    have hsd : ValidSignedDelegation sd := h sd (List.mem_cons_self sd rest)
    have hrest : ∀ x ∈ rest, ValidSignedDelegation x := fun x hx =>
      h x (List.mem_cons_of_mem sd hx)
    simp only [List.map_cons, mapOption, signedDelegationFromJSON_toJSON sd hsd, ih hrest]

theorem chainFromJSON_chainToJSON (c : DelegationChainM) (h : ValidChain c) :
    chainFromJSON (chainToJSON c) = some c := by
  simp only [chainFromJSON, chainToJSON, mapOption_signedDelegation _ h.1,
    hexToBytes_bytesToHex _ h.2]

/-! ## Persistence Adapter (`local-storage.ts`)

`localStorage` holds at most one record under `SIWP_STORAGE_KEY`; storage is
modelled as `Option SiweIdentityStorage`, the stored parse of that record. -/

/-- The persisted record shape `{uid, sessionIdentity, delegationChain}`; each
field is optional so that structurally deficient records are expressible. -/
structure SiweIdentityStorage where
  uid : Option String
  sessionIdentity : Option Ed25519KeyPairJson
  delegationChain : Option DelegationChainJson
deriving Repr, DecidableEq

/-- The distinct failures `loadIdentity` can raise: absent record
("No stored identity found."), structurally invalid record
("Stored state is invalid."), or a deserialization failure thrown by
`DelegationChain.fromJSON` / `Ed25519KeyIdentity.fromJSON`. -/
inductive LoadError where
  | noStoredIdentity
  | invalidStoredState
  | chainDeserialization
  | keyDeserialization
deriving Repr, DecidableEq

/-- A load failure is of the corrupt-stored-session class when a record was
present but unusable, i.e. any failure other than `noStoredIdentity`. -/
def LoadError.isCorrupt : LoadError → Bool
  | .noStoredIdentity => false
  | _ => true

/-- `loadIdentity` from `local-storage.ts`: reads the stored record, requires
all three fields to be truthy (a `""` uid is falsy in JS), deserializes chain
then key, and composes the restored `DelegationIdentity`. -/
def loadIdentity (stored : Option SiweIdentityStorage) :
    Except LoadError (String × DelegationIdentityM × DelegationChainM) :=
  match stored with
  | none => .error .noStoredIdentity
  | some s =>
    match s.uid, s.sessionIdentity, s.delegationChain with
    | some uid, some kj, some cj =>
      if uid = "" then .error .invalidStoredState
      else
        match chainFromJSON cj with
        | none => .error .chainDeserialization
        | some d =>
          match keyFromJSON kj with
          | none => .error .keyDeserialization
          | some k => .ok (uid, ⟨k, d⟩, d)
    | _, _, _ => .error .invalidStoredState

/-- `saveIdentity` from `local-storage.ts`: the record written under
`SIWP_STORAGE_KEY`, serializing the key and the chain via their JSON codecs. -/
def saveIdentity (uid : String) (sessionIdentity : Ed25519KeyPair)
    (delegationChain : DelegationChainM) : SiweIdentityStorage :=
  ⟨some uid, some (keyToJSON sessionIdentity), some (chainToJSON delegationChain)⟩

/-- `clearIdentity` from `local-storage.ts`: removes the single record. -/
def clearIdentity (_stored : Option SiweIdentityStorage) : Option SiweIdentityStorage :=
  none

/-! ## Delegation Codec (`delegation.ts`) -/

/-- Modelled from the spec: the repository's `delegation.ts` defining
`createDelegationChain` is not among the sources (only its call sites are).
Per §4.3, `buildChain(signedDelegation, targetRootKey)` wraps a single signed
delegation into a chain rooted at `targetRootKey` and fails with
`MalformedDelegation` if the delegation's embedded public key does not match
the session public key that requested it. -/
def createDelegationChain (signedDelegation : SignedDelegation)
    (targetRootKey : List Nat) (sessionPublicKey : List Nat) :
    Except String DelegationChainM :=
  if signedDelegation.delegation.pubkey = sessionPublicKey then
    .ok ⟨[signedDelegation], targetRootKey⟩
  else
    .error "MalformedDelegation"

/-! ## Engine state (`state.type.ts`)

Actors are external RPC stubs; for the engine only their presence matters, so
the anonymous actor is modelled as `Option Unit` and the identity-bound actor
by the identity it was created with (`IdentityProvider` always has `idlFactory`
and `canisterId`, its required props, so `createAnonymousActor` succeeds). -/

/-- `PrepareLoginStatus` from `state.type.ts`. -/
inductive PrepareLoginStatus where
  | error
  | preparing
  | success
  | idle
deriving Repr, DecidableEq

/-- `LoginStatus` from `state.type.ts`. -/
inductive LoginStatus where
  | error
  | loggingIn
  | success
  | idle
deriving Repr, DecidableEq

/-- `State` from `state.type.ts` (second variant, with `identityActor`).
Errors are carried as their message strings. -/
structure State where
  anonymousActor : Option Unit
  identityActor : Option DelegationIdentityM
  isInitializing : Bool
  prepareLoginStatus : PrepareLoginStatus
  prepareLoginError : Option String
  loginStatus : LoginStatus
  loginError : Option String
  identity : Option DelegationIdentityM
  identityId : Option String
  delegationChain : Option DelegationChainM
deriving Repr, DecidableEq

/-- `Partial<State>`: a field set to `none` is absent from the object literal;
`some v` is a field present in the literal with value `v` (which may itself be
`undefined`, i.e. the inner `none`). -/
structure StatePatch where
  anonymousActor : Option (Option Unit) := none
  identityActor : Option (Option DelegationIdentityM) := none
  isInitializing : Option Bool := none
  prepareLoginStatus : Option PrepareLoginStatus := none
  prepareLoginError : Option (Option String) := none
  loginStatus : Option LoginStatus := none
  loginError : Option (Option String) := none
  identity : Option (Option DelegationIdentityM) := none
  identityId : Option (Option String) := none
  delegationChain : Option (Option DelegationChainM) := none

/-- `updateState`: the shallow merge `(prevState) => ({...prevState, ...newState})` —
fields present in the patch overwrite, all others are retained. -/
def updateState (s : State) (p : StatePatch) : State where
  anonymousActor := p.anonymousActor.getD s.anonymousActor
  identityActor := p.identityActor.getD s.identityActor
  isInitializing := p.isInitializing.getD s.isInitializing
  prepareLoginStatus := p.prepareLoginStatus.getD s.prepareLoginStatus
  prepareLoginError := p.prepareLoginError.getD s.prepareLoginError
  loginStatus := p.loginStatus.getD s.loginStatus
  loginError := p.loginError.getD s.loginError
  identity := p.identity.getD s.identity
  identityId := p.identityId.getD s.identityId
  delegationChain := p.delegationChain.getD s.delegationChain

/-! ## Promises and the world

Each call to `login` / `loginWithSessionKey` constructs a fresh promise; its
resolve/reject pair is stored in a mutable ref slot.  Promises are identified
by allocation order; a JS promise settles at most once (the first
resolve/reject wins; later ones are no-ops), recorded in `settled`. -/

/-- A settlement of a promise: resolution with a login response, resolution
with binding details, or rejection with an error message. -/
inductive Outcome where
  | loginResolved (r : DelegationIdentityM × String)
  | pkResolved (r : BindingDelegationDeatils)
  | rejected (msg : String)
deriving Repr, DecidableEq

/-- The observable world: engine state, the single stored record, the two
promise-handle slots (`loginPromiseHandlers.current` and
`loginWithPublicKeyPromiseHandlers.current`, holding the promise id whose
resolve/reject pair is currently installed), the settlements so far, and the
next fresh promise id. -/
structure World where
  state : State
  storage : Option SiweIdentityStorage
  loginPromiseHandlers : Option Nat
  loginWithPublicKeyPromiseHandlers : Option Nat
  settled : List (Nat × Outcome)
  nextPid : Nat
deriving Repr, DecidableEq

/-- The settlement of promise `pid`, if it has settled. -/
def settledOutcome (w : World) (pid : Nat) : Option Outcome :=
  (w.settled.find? (fun p => p.fst == pid)).map Prod.snd

/-- Settle promise `pid`: a no-op if it already settled (JS promise
semantics), else record the outcome. -/
def settle (w : World) (pid : Nat) (o : Outcome) : World :=
  if w.settled.any (fun p => p.fst == pid) then w
  else { w with settled := w.settled ++ [(pid, o)] }

/-- Modelled from the spec: `error.ts` defining `normalizeError` is not among
the sources.  Errors are already carried as message strings, on which
normalization to an `Error` is the identity. -/
def normalizeError (e : String) : String := e

/-- JS `message || e.message`: the override message is used when truthy. -/
def orMessage (message : Option String) (errMsg : String) : String :=
  match message with
  | some m => if m = "" then errMsg else m
  | none => errMsg

/-- `rejectLoginWithError(error, message?)`: sets `loginStatus="error"` with
`loginError`, then rejects whatever promise the `loginPromiseHandlers` slot
currently holds (note: always that slot, for both login variants). -/
def rejectLoginWithError (w : World) (errMsg : String) (message : Option String) : World :=
  let e := normalizeError errMsg
  let errorMessage := orMessage message e
  let w' : World := { w with
    state := updateState w.state
      { loginStatus := some .error, loginError := some (some errorMessage) } }
  match w'.loginPromiseHandlers with
  | some pid => settle w' pid (.rejected errorMessage)
  | none => w'

/-! ## Remote Authority Client (`siwp-provider.tsx`, current variant)

Each call is a single round trip; the authority's `{Ok}|{Err}` envelope for
the round trip is supplied by the oracle, and these functions perform the
translation of `Err` envelopes into thrown errors exactly as the source does.
Which `siwp_login` variant is hit depends on `username`/`authenticationState`
but does not change the envelope handling. -/

/-- JS truthiness of an optional string (`undefined` and `""` are falsy). -/
def truthy : Option String → Bool
  | some s => s ≠ ""
  | none => false

/-- `callLogin(anonymousActor, webauthnResponse, sessionPublicKey,
authenticationState?, username?)`: throws "Invalid actor" without an actor,
then forwards the authority's envelope, throwing its `Err` message. -/
def callLogin (anonymousActor : Option Unit) (_webauthnResponse : String)
    (_sessionPublicKey : List Nat) (_authenticationState : String)
    (_username : Option String) (resp : LoginResponse) :
    Except String BindingDelegationDeatils :=
  match anonymousActor with
  | none => .error "Invalid actor"
  | some _ =>
    match resp with
    | .Err e => .error e
    | .Ok v => .ok v

/-- `callGetDelegation(anonymousActor, username, sessionPublicKey, expiration)`:
throws "Invalid actor or username" when the actor or the username is falsy,
then forwards the authority's envelope, throwing its `Err` message. -/
def callGetDelegation (anonymousActor : Option Unit) (username : Option String)
    (_sessionPublicKey : List Nat) (_expiration : Nat)
    (resp : GetDelegationResponse) : Except String SignedDelegation :=
  if anonymousActor.isNone ∨ truthy username = false then
    .error "Invalid actor or username"
  else
    match resp with
    | .Err e => .error e
    | .Ok v => .ok v

/-- The authority's and key generator's behavior during one login attempt:
the settled result of `callPrepareLogin` (which wraps the prepare round trip
and the external webauthn ceremony), the `siwp_login` envelope, the
`siwp_get_delegation` envelope, and the keypair that
`Ed25519KeyIdentity.generate()` returns in this attempt. -/
structure LoginOracle where
  prepareResponse : Except String StartAuthResponse
  loginResponse : LoginResponse
  delegationResponse : GetDelegationResponse
  genKey : Ed25519KeyPair

/-- The message of the missing-actor rejection. -/
def hookNotInitializedMsg : String :=
  "Hook not initialized properly. Make sure to supply all required props to the IdentityProvider."

/-- The message of the concurrent-login rejection. -/
def concurrentLoginMsg : String :=
  "Don't call login while prepareLogin is running."

/-- `getDelegation(identityId, sessionPublicKey, sessionIdentity, expiration,
user_canister_pubkey)`: checks the actor, fetches the delegation (any failure
rethrown as "Unable to get identity."), builds the chain, composes the
delegation identity, persists it, merges the success state (including the
identity-bound actor) and returns `{identity, username}`.  A thrown error is
returned as `.error` for the caller's catch. -/
def getDelegation (w : World) (identityId : String) (sessionPublicKey : List Nat)
    (sessionIdentity : Ed25519KeyPair) (expiration : Nat)
    (user_canister_pubkey : List Nat) (delegResp : GetDelegationResponse) :
    World × Except String (DelegationIdentityM × String) :=
  match w.state.anonymousActor with
  | none => (w, .error hookNotInitializedMsg)
  | some _ =>
    match callGetDelegation w.state.anonymousActor (some identityId)
        sessionPublicKey expiration delegResp with
    | .error _ => (w, .error "Unable to get identity.")
    | .ok signedDelegation =>
      match createDelegationChain signedDelegation user_canister_pubkey
          sessionPublicKey with
      | .error e => (w, .error e)
      | .ok delegationChain =>
        let identity : DelegationIdentityM := ⟨sessionIdentity, delegationChain⟩
        let w' : World := { w with
          storage := some (saveIdentity identityId sessionIdentity delegationChain) }
        let w'' : World := { w' with
          state := updateState w'.state
            { loginStatus := some .success
              identityId := some (some identityId)
              identity := some (some identity)
              delegationChain := some (some delegationChain)
              identityActor := some (some identity) } }
        (w'', .ok (identity, identityId))

/-- `onWebauthnSettled(anonymousActor, webauthnResponse, authenticationState?,
username?, customSessionPublicKey?)`: with a custom session public key, submit
the assertion and resolve the `loginWithPublicKeyPromiseHandlers` slot with the
binding details; otherwise generate a fresh session identity, submit, fetch
and compose the delegation, and resolve the `loginPromiseHandlers` slot. -/
def onWebauthnSettled (w : World) (anonymousActor : Option Unit)
    (webauthnResponse : String) (authenticationState : String)
    (username : Option String) (customSessionPublicKey : Option (List Nat))
    (o : LoginOracle) : World :=
  match anonymousActor with
  | none => rejectLoginWithError w "Invalid actor or address." none
  | some _ =>
    match customSessionPublicKey with
    | some spk =>
      match callLogin anonymousActor webauthnResponse spk authenticationState
          username o.loginResponse with
      | .error e => rejectLoginWithError w e (some "Login error with customSessionPublicKey.")
      | .ok loginOkResponse =>
        match w.loginWithPublicKeyPromiseHandlers with
        | some pid => settle w pid (.pkResolved loginOkResponse)
        | none => w
    | none =>
      let sessionIdentity := o.genKey
      let sessionPublicKey := sessionIdentity.publicKey
      match callLogin anonymousActor webauthnResponse sessionPublicKey
          authenticationState username o.loginResponse with
      | .error e => rejectLoginWithError w e (some "Unable to login.")
      | .ok loginOkResponse =>
        let wr := getDelegation w loginOkResponse.username sessionPublicKey
          sessionIdentity loginOkResponse.login_details.expiration
          loginOkResponse.login_details.user_canister_pubkey o.delegationResponse
        match wr.2 with
        | .error e => rejectLoginWithError wr.1 e none
        | .ok response =>
          match wr.1.loginPromiseHandlers with
          | some pid => settle wr.1 pid (.loginResolved response)
          | none => wr.1

/-! ## `login` and `loginWithSessionKey`

A JS async function runs synchronously up to its first `await`; the call is
therefore split into a synchronous start (install the promise handlers, run
the actor and concurrency checks, merge the in-progress statuses, up to the
`await callPrepareLogin`) and the continuation from the settled prepare
response.  `done = true` means the attempt returned before its first await. -/

/-- Result of the synchronous part of a login call: the world, the id of the
promise the call returned, and whether the attempt already terminated. -/
structure LoginStartResult where
  w : World
  pid : Nat
  done : Bool
deriving Repr, DecidableEq

/-- Synchronous part of `login(loginUid?)`: allocate the promise, install its
handlers in `loginPromiseHandlers.current`, then the missing-actor check, the
`prepareLoginStatus === "preparing"` concurrency guard, and the two
in-progress state merges. -/
def loginStart (w : World) (_loginUid : Option String) : LoginStartResult :=
  let pid := w.nextPid
  let w1 : World := { w with nextPid := pid + 1, loginPromiseHandlers := some pid }
  match w1.state.anonymousActor with
  | none => ⟨rejectLoginWithError w1 hookNotInitializedMsg none, pid, true⟩
  | some _ =>
    if w1.state.prepareLoginStatus = .preparing then
      ⟨rejectLoginWithError w1 concurrentLoginMsg none, pid, true⟩
    else
      let w2 : World := { w1 with
        state := updateState w1.state
          { loginStatus := some .loggingIn, loginError := some none } }
      let w3 : World := { w2 with
        state := updateState w2.state
          { prepareLoginStatus := some .preparing, prepareLoginError := some none } }
      ⟨w3, pid, false⟩

/-- The shape dispatch on the settled `callPrepareLogin` value: a bare string
is accepted only with a truthy `loginUid`; a pair is accepted when both
components are truthy; anything else throws "Invalid authentication response".
Returns the webauthn response and the authentication state (`""` when none). -/
def prepareShape (loginUid : Option String) (resp : StartAuthResponse) :
    Except String (String × String) :=
  match resp with
  | .single s =>
    if truthy loginUid then .ok (s, "")
    else .error "Invalid authentication response"
  | .pair a b =>
    if a ≠ "" ∧ b ≠ "" then .ok (a, b)
    else .error "Invalid authentication response"

/-- Continuation of `login` after `callPrepareLogin` settles: on a prepare
failure (or an unrecognized shape) merge the prepare error and reject; on
success merge `prepareLoginStatus="success"` and run `onWebauthnSettled` with
no custom session key. -/
def loginFinish (w : World) (loginUid : Option String) (o : LoginOracle) : World :=
  let settledPrepare : Except String (String × String) :=
    match o.prepareResponse with
    | .error e => .error e
    | .ok resp => prepareShape loginUid resp
  match settledPrepare with
  | .error e =>
    let w1 : World := { w with
      state := updateState w.state
        { prepareLoginStatus := some .error, prepareLoginError := some (some (normalizeError e)) } }
    rejectLoginWithError w1 (normalizeError e) none
  | .ok (webauthnResponse, authenticationState) =>
    let w1 : World := { w with
      state := updateState w.state { prepareLoginStatus := some .success } }
    onWebauthnSettled w1 w1.state.anonymousActor webauthnResponse
      authenticationState loginUid none o

/-- A full `login(loginUid?)` call with no interleaved activity: the
synchronous start followed, unless the attempt already terminated, by the
continuation. Returns the final world and the returned promise's id. -/
def loginRun (w : World) (loginUid : Option String) (o : LoginOracle) : World × Nat :=
  let r := loginStart w loginUid
  (if r.done then r.w else loginFinish r.w loginUid o, r.pid)

/-- Synchronous part of `loginWithSessionKey(sessionPublicKey, loginUid?)`:
identical to `loginStart` except that the promise handlers are installed in
the separate `loginWithPublicKeyPromiseHandlers.current` slot. -/
def loginWithSessionKeyStart (w : World) (_sessionPublicKey : List Nat)
    (_loginUid : Option String) : LoginStartResult :=
  let pid := w.nextPid
  let w1 : World :=
    { w with nextPid := pid + 1, loginWithPublicKeyPromiseHandlers := some pid }
  match w1.state.anonymousActor with
  | none => ⟨rejectLoginWithError w1 hookNotInitializedMsg none, pid, true⟩
  | some _ =>
    if w1.state.prepareLoginStatus = .preparing then
      ⟨rejectLoginWithError w1 concurrentLoginMsg none, pid, true⟩
    else
      let w2 : World := { w1 with
        state := updateState w1.state
          { loginStatus := some .loggingIn, loginError := some none } }
      let w3 : World := { w2 with
        state := updateState w2.state
          { prepareLoginStatus := some .preparing, prepareLoginError := some none } }
      ⟨w3, pid, false⟩

/-- Continuation of `loginWithSessionKey` after `callPrepareLogin` settles:
as `loginFinish`, but `onWebauthnSettled` receives the caller's session public
key as the custom key. -/
def loginWithSessionKeyFinish (w : World) (sessionPublicKey : List Nat)
    (loginUid : Option String) (o : LoginOracle) : World :=
  let settledPrepare : Except String (String × String) :=
    match o.prepareResponse with
    | .error e => .error e
    | .ok resp => prepareShape loginUid resp
  match settledPrepare with
  | .error e =>
    let w1 : World := { w with
      state := updateState w.state
        { prepareLoginStatus := some .error, prepareLoginError := some (some (normalizeError e)) } }
    rejectLoginWithError w1 (normalizeError e) none
  | .ok (webauthnResponse, authenticationState) =>
    let w1 : World := { w with
      state := updateState w.state { prepareLoginStatus := some .success } }
    onWebauthnSettled w1 w1.state.anonymousActor webauthnResponse
      authenticationState loginUid (some sessionPublicKey) o

/-- A full `loginWithSessionKey` call with no interleaved activity. -/
def loginWithSessionKeyRun (w : World) (sessionPublicKey : List Nat)
    (loginUid : Option String) (o : LoginOracle) : World × Nat :=
  let r := loginWithSessionKeyStart w sessionPublicKey loginUid
  (if r.done then r.w
   else loginWithSessionKeyFinish r.w sessionPublicKey loginUid o, r.pid)

/-- `clear()`: one shallow merge resetting the lifecycle fields (note that
`anonymousActor` is not in the patch) followed by `clearIdentity()`. -/
def clear (w : World) : World :=
  let w1 : World := { w with
    state := updateState w.state
      { isInitializing := some false
        prepareLoginStatus := some .idle
        prepareLoginError := some none
        loginStatus := some .idle
        loginError := some none
        identity := some none
        identityId := some none
        delegationChain := some none
        identityActor := some none } }
  { w1 with storage := clearIdentity w1.storage }

/-- The mount effect restoring a stored identity: on success populate the
identity fields and the identity-bound actor; on any load failure only log and
set `isInitializing = false`. -/
def loadIdentityEffect (w : World) : World :=
  match loadIdentity w.storage with
  | .ok (a, i, d) =>
    let p : StatePatch :=
      { identityId := some (some a)
        identity := some (some i)
        delegationChain := some (some d)
        isInitializing := some false
        identityActor := some (some i) }
    { w with state := updateState w.state p }
  | .error _ =>
    { w with state := updateState w.state { isInitializing := some false } }

/-- The initial `useState` value of the provider. -/
def initState : State where
  anonymousActor := none
  identityActor := none
  isInitializing := true
  prepareLoginStatus := .idle
  prepareLoginError := none
  loginStatus := .idle
  loginError := none
  identity := none
  identityId := none
  delegationChain := none

/-- The world at mount, over a given stored record. -/
def initWorld (storage : Option SiweIdentityStorage) : World where
  state := initState
  storage := storage
  loginPromiseHandlers := none
  loginWithPublicKeyPromiseHandlers := none
  settled := []
  nextPid := 0

/-- A world ready for login calls: mounted, identity restore settled (with
nothing stored beyond `storage`), and the anonymous-actor effect done. -/
def readyWorld (storage : Option SiweIdentityStorage) : World :=
  let w := loadIdentityEffect (initWorld storage)
  { w with state := updateState w.state ({ anonymousActor := some (some ()) }) }

/-! ## Basic lemmas about settlements and the reject helper -/

theorem settledOutcome_eq_none_iff (w : World) (pid : Nat) :
    settledOutcome w pid = none ↔ ∀ x ∈ w.settled, ¬ x.fst = pid := by
  simp [settledOutcome, List.find?_eq_none]

theorem settle_of_fresh (w : World) (pid : Nat) (o : Outcome)
    (h : settledOutcome w pid = none) :
    settle w pid o = { w with settled := w.settled ++ [(pid, o)] } := by
  rw [settledOutcome_eq_none_iff] at h
  unfold settle
  rw [if_neg]
  simp only [List.any_eq_true, beq_iff_eq, not_exists, not_and]
  intro x hx
  exact fun heq => h x hx heq

theorem settledOutcome_settle_self (w : World) (pid : Nat) (o : Outcome)
    (h : settledOutcome w pid = none) :
    settledOutcome (settle w pid o) pid = some o := by
  rw [settle_of_fresh w pid o h]
  rw [settledOutcome_eq_none_iff] at h
  simp only [settledOutcome, List.find?_append]
  rw [List.find?_eq_none.mpr (by simpa using h)]
  simp [List.find?]

theorem settledOutcome_settle_of_ne (w : World) (pid q : Nat) (o : Outcome)
    (h : q ≠ pid) :
    settledOutcome (settle w pid o) q = settledOutcome w q := by
  unfold settle
  split
  · rfl
  · simp only [settledOutcome, List.find?_append]
    have hbeq : (pid == q) = false := beq_eq_false_iff_ne.mpr (Ne.symm h)
    have : List.find? (fun p => p.fst == q) [(pid, o)] = none := by
      simp [List.find?, hbeq]
    cases hf : List.find? (fun p => p.fst == q) w.settled <;> simp [this, hf]

theorem settle_state (w : World) (pid : Nat) (o : Outcome) :
    (settle w pid o).state = w.state := by
  unfold settle; split <;> rfl

theorem settle_storage (w : World) (pid : Nat) (o : Outcome) :
    (settle w pid o).storage = w.storage := by
  unfold settle; split <;> rfl

theorem rejectLoginWithError_spec (w : World) (pid : Nat) (e : String)
    (m : Option String) (hslot : w.loginPromiseHandlers = some pid)
    (hfresh : settledOutcome w pid = none) :
    (rejectLoginWithError w e m).state.loginStatus = .error ∧
    (rejectLoginWithError w e m).state.loginError = some (orMessage m e) ∧
    settledOutcome (rejectLoginWithError w e m) pid =
      some (.rejected (orMessage m e)) ∧
    (rejectLoginWithError w e m).storage = w.storage := by
  unfold rejectLoginWithError normalizeError
  simp only [hslot]
  refine ⟨?_, ?_, ?_, ?_⟩
  · rw [settle_state]; rfl
  · rw [settle_state]; rfl
  · exact settledOutcome_settle_self _ pid _ hfresh
  · rw [settle_storage]

theorem rejectLoginWithError_skips (w : World) (q : Nat) (e : String)
    (m : Option String) (h : w.loginPromiseHandlers ≠ some q) :
    settledOutcome (rejectLoginWithError w e m) q = settledOutcome w q := by
  unfold rejectLoginWithError normalizeError
  cases hslot : w.loginPromiseHandlers with
  | none => rfl
  | some pid =>
    have : q ≠ pid := fun hq => h (hq ▸ hslot)
    exact settledOutcome_settle_of_ne _ pid q _ this

theorem settle_invariants (w : World) (pid : Nat) (o : Outcome) :
    (settle w pid o).nextPid = w.nextPid ∧
    (settle w pid o).loginPromiseHandlers = w.loginPromiseHandlers ∧
    (settle w pid o).loginWithPublicKeyPromiseHandlers =
      w.loginWithPublicKeyPromiseHandlers := by
  unfold settle; split <;> exact ⟨rfl, rfl, rfl⟩

theorem rejectLoginWithError_invariants (w : World) (e : String) (m : Option String) :
    (rejectLoginWithError w e m).nextPid = w.nextPid ∧
    (rejectLoginWithError w e m).loginPromiseHandlers = w.loginPromiseHandlers ∧
    (rejectLoginWithError w e m).loginWithPublicKeyPromiseHandlers =
      w.loginWithPublicKeyPromiseHandlers ∧
    (rejectLoginWithError w e m).storage = w.storage := by
  unfold rejectLoginWithError
  cases w.loginPromiseHandlers with
  | none => exact ⟨rfl, rfl, rfl, rfl⟩
  | some pid =>
    refine ⟨(settle_invariants _ _ _).1, (settle_invariants _ _ _).2.1,
      (settle_invariants _ _ _).2.2, settle_storage _ _ _⟩

theorem getDelegation_invariants (w : World) (identityId : String)
    (spk : List Nat) (sid : Ed25519KeyPair) (exp : Nat) (ucp : List Nat)
    (resp : GetDelegationResponse) :
    (getDelegation w identityId spk sid exp ucp resp).1.settled = w.settled ∧
    (getDelegation w identityId spk sid exp ucp resp).1.nextPid = w.nextPid ∧
    (getDelegation w identityId spk sid exp ucp resp).1.loginPromiseHandlers =
      w.loginPromiseHandlers ∧
    (getDelegation w identityId spk sid exp ucp resp).1.loginWithPublicKeyPromiseHandlers =
      w.loginWithPublicKeyPromiseHandlers := by
  unfold getDelegation
  split
  · exact ⟨rfl, rfl, rfl, rfl⟩
  · split
    · exact ⟨rfl, rfl, rfl, rfl⟩
    · split
      · exact ⟨rfl, rfl, rfl, rfl⟩
      · exact ⟨rfl, rfl, rfl, rfl⟩

theorem getDelegation_ok_identity (w : World) (identityId : String)
    (spk : List Nat) (sid : Ed25519KeyPair) (exp : Nat) (ucp : List Nat)
    (resp : GetDelegationResponse) (r : DelegationIdentityM × String)
    (h : (getDelegation w identityId spk sid exp ucp resp).2 = .ok r) :
    r.1.sessionKey = sid := by
  unfold getDelegation at h
  split at h
  · cases h
  · split at h
    · cases h
    · split at h
      · cases h
      · cases h; rfl

theorem onWebauthnSettled_none_frame (w : World) (a : Option Unit)
    (wa as : String) (uid : Option String) (o : LoginOracle) (p q : Nat)
    (hslot : w.loginPromiseHandlers = some p) (hq : q ≠ p) :
    settledOutcome (onWebauthnSettled w a wa as uid none o) q = settledOutcome w q := by
  have hskip : ∀ (w' : World) (e : String) (m : Option String),
      w'.loginPromiseHandlers = some p →
      settledOutcome (rejectLoginWithError w' e m) q = settledOutcome w' q := by
    intro w' e m h
    refine rejectLoginWithError_skips w' q e m ?_
    rw [h]
    intro hc
    exact hq (Option.some.inj hc).symm
  unfold onWebauthnSettled
  cases a with
  | none => exact hskip _ _ _ hslot
  | some u =>
    dsimp only
    rcases hcl : callLogin (some u) wa o.genKey.publicKey as uid o.loginResponse with e | lr
    · simp only [hcl]
      exact hskip _ _ _ hslot
    · simp only [hcl]
      have hinv := getDelegation_invariants w lr.username o.genKey.publicKey o.genKey
        lr.login_details.expiration lr.login_details.user_canister_pubkey o.delegationResponse
      rcases hgd : (getDelegation w lr.username o.genKey.publicKey o.genKey
          lr.login_details.expiration lr.login_details.user_canister_pubkey
          o.delegationResponse).2 with e | r
      · simp only [hgd]
        refine (hskip _ _ _ ?_).trans ?_
        · exact hinv.2.2.1.trans hslot
        · simp [settledOutcome, hinv.1]
      · simp only [hgd]
        rw [hinv.2.2.1, hslot]
        rw [settledOutcome_settle_of_ne _ _ _ _ hq]
        simp [settledOutcome, hinv.1]


theorem onWebauthnSettled_none_invariants (w : World) (a : Option Unit)
    (wa as : String) (uid : Option String) (o : LoginOracle) :
    (onWebauthnSettled w a wa as uid none o).nextPid = w.nextPid ∧
    (onWebauthnSettled w a wa as uid none o).loginPromiseHandlers =
      w.loginPromiseHandlers ∧
    (onWebauthnSettled w a wa as uid none o).loginWithPublicKeyPromiseHandlers =
      w.loginWithPublicKeyPromiseHandlers := by
  unfold onWebauthnSettled
  cases a with
  | none =>
    exact ⟨(rejectLoginWithError_invariants _ _ _).1,
      (rejectLoginWithError_invariants _ _ _).2.1,
      (rejectLoginWithError_invariants _ _ _).2.2.1⟩
  | some u =>
    dsimp only
    rcases hcl : callLogin (some u) wa o.genKey.publicKey as uid o.loginResponse with e | lr
    · simp only [hcl]
      exact ⟨(rejectLoginWithError_invariants _ _ _).1,
        (rejectLoginWithError_invariants _ _ _).2.1,
        (rejectLoginWithError_invariants _ _ _).2.2.1⟩
    · simp only [hcl]
      have hinv := getDelegation_invariants w lr.username o.genKey.publicKey o.genKey
        lr.login_details.expiration lr.login_details.user_canister_pubkey o.delegationResponse
      rcases hgd : (getDelegation w lr.username o.genKey.publicKey o.genKey
          lr.login_details.expiration lr.login_details.user_canister_pubkey
          o.delegationResponse).2 with e | r
      · simp only [hgd]
        exact ⟨(rejectLoginWithError_invariants _ _ _).1.trans hinv.2.1,
          (rejectLoginWithError_invariants _ _ _).2.1.trans hinv.2.2.1,
          (rejectLoginWithError_invariants _ _ _).2.2.1.trans hinv.2.2.2⟩
      · simp only [hgd]
        rw [hinv.2.2.1]
        cases hsl : w.loginPromiseHandlers with
        | none => exact ⟨hinv.2.1, hinv.2.2.1.trans hsl, hinv.2.2.2⟩
        | some pid =>
          exact ⟨(settle_invariants _ _ _).1.trans hinv.2.1,
            (settle_invariants _ _ _).2.1.trans (hinv.2.2.1.trans hsl),
            (settle_invariants _ _ _).2.2.trans hinv.2.2.2⟩

theorem loginFinish_frame (w : World) (uid : Option String) (o : LoginOracle)
    (p q : Nat) (hslot : w.loginPromiseHandlers = some p) (hq : q ≠ p) :
    settledOutcome (loginFinish w uid o) q = settledOutcome w q := by
  have hskip : ∀ (w' : World) (e : String) (m : Option String),
      w'.loginPromiseHandlers = some p →
      settledOutcome (rejectLoginWithError w' e m) q = settledOutcome w' q := by
    intro w' e m h
    refine rejectLoginWithError_skips w' q e m ?_
    rw [h]
    intro hc
    exact hq (Option.some.inj hc).symm
  unfold loginFinish
  rcases hp : o.prepareResponse with e | resp
  · simp only [hp]
    exact hskip _ _ _ hslot
  · simp only [hp]
    rcases hs : prepareShape uid resp with e | ⟨wa, as⟩
    · simp only [hs]
      exact hskip _ _ _ hslot
    · simp only [hs]
      exact onWebauthnSettled_none_frame _ _ _ _ _ _ p q hslot hq

theorem loginFinish_invariants (w : World) (uid : Option String) (o : LoginOracle) :
    (loginFinish w uid o).nextPid = w.nextPid ∧
    (loginFinish w uid o).loginPromiseHandlers = w.loginPromiseHandlers ∧
    (loginFinish w uid o).loginWithPublicKeyPromiseHandlers =
      w.loginWithPublicKeyPromiseHandlers := by
  unfold loginFinish
  rcases hp : o.prepareResponse with e | resp
  · simp only [hp]
    exact ⟨(rejectLoginWithError_invariants _ _ _).1,
      (rejectLoginWithError_invariants _ _ _).2.1,
      (rejectLoginWithError_invariants _ _ _).2.2.1⟩
  · simp only [hp]
    rcases hs : prepareShape uid resp with e | ⟨wa, as⟩
    · simp only [hs]
      exact ⟨(rejectLoginWithError_invariants _ _ _).1,
        (rejectLoginWithError_invariants _ _ _).2.1,
        (rejectLoginWithError_invariants _ _ _).2.2.1⟩
    · simp only [hs]
      exact onWebauthnSettled_none_invariants _ _ _ _ _ _

theorem rejectLoginWithError_state (w : World) (e : String) (m : Option String) :
    (rejectLoginWithError w e m).state.loginStatus = .error ∧
    (rejectLoginWithError w e m).state.loginError = some (orMessage m e) := by
  unfold rejectLoginWithError normalizeError
  cases w.loginPromiseHandlers with
  | none => exact ⟨rfl, rfl⟩
  | some pid => rw [settle_state]; exact ⟨rfl, rfl⟩

theorem onWebauthnSettled_none_outcome (w : World) (a : Option Unit)
    (wa as : String) (uid : Option String) (o : LoginOracle) (p : Nat)
    (hslot : w.loginPromiseHandlers = some p)
    (hfresh : settledOutcome w p = none) :
    (∃ r, settledOutcome (onWebauthnSettled w a wa as uid none o) p =
        some (.loginResolved r) ∧ r.1.sessionKey = o.genKey) ∨
    (∃ m, settledOutcome (onWebauthnSettled w a wa as uid none o) p =
        some (.rejected m) ∧
      (onWebauthnSettled w a wa as uid none o).state.loginStatus = .error ∧
      (onWebauthnSettled w a wa as uid none o).state.loginError = some m) := by
  unfold onWebauthnSettled
  cases a with
  | none =>
    right
    exact ⟨_, (rejectLoginWithError_spec w p _ _ hslot hfresh).2.2.1,
      (rejectLoginWithError_spec w p _ _ hslot hfresh).1,
      (rejectLoginWithError_spec w p _ _ hslot hfresh).2.1⟩
  | some u =>
    dsimp only
    rcases hcl : callLogin (some u) wa o.genKey.publicKey as uid o.loginResponse with e | lr
    · simp only [hcl]
      right
      exact ⟨_, (rejectLoginWithError_spec w p _ _ hslot hfresh).2.2.1,
        (rejectLoginWithError_spec w p _ _ hslot hfresh).1,
        (rejectLoginWithError_spec w p _ _ hslot hfresh).2.1⟩
    · simp only [hcl]
      have hinv := getDelegation_invariants w lr.username o.genKey.publicKey o.genKey
        lr.login_details.expiration lr.login_details.user_canister_pubkey o.delegationResponse
      have hslot' : (getDelegation w lr.username o.genKey.publicKey o.genKey
          lr.login_details.expiration lr.login_details.user_canister_pubkey
          o.delegationResponse).1.loginPromiseHandlers = some p := hinv.2.2.1.trans hslot
      have hfresh' : settledOutcome (getDelegation w lr.username o.genKey.publicKey o.genKey
          lr.login_details.expiration lr.login_details.user_canister_pubkey
          o.delegationResponse).1 p = none := by
        simpa [settledOutcome, hinv.1] using hfresh
      rcases hgd : (getDelegation w lr.username o.genKey.publicKey o.genKey
          lr.login_details.expiration lr.login_details.user_canister_pubkey
          o.delegationResponse).2 with e | r
      · simp only [hgd]
        right
        exact ⟨_, (rejectLoginWithError_spec _ p _ _ hslot' hfresh').2.2.1,
          (rejectLoginWithError_spec _ p _ _ hslot' hfresh').1,
          (rejectLoginWithError_spec _ p _ _ hslot' hfresh').2.1⟩
      · simp only [hgd, hslot']
        left
        refine ⟨r, settledOutcome_settle_self _ p _ hfresh', ?_⟩
        exact getDelegation_ok_identity w lr.username o.genKey.publicKey o.genKey
          lr.login_details.expiration lr.login_details.user_canister_pubkey
          o.delegationResponse r hgd


theorem rejectLoginWithError_outcome (w : World) (p : Nat) (e : String)
    (m : Option String) (hslot : w.loginPromiseHandlers = some p)
    (hfresh : settledOutcome w p = none) :
    ∃ m', settledOutcome (rejectLoginWithError w e m) p = some (.rejected m') ∧
      (rejectLoginWithError w e m).state.loginStatus = .error ∧
      (rejectLoginWithError w e m).state.loginError = some m' :=
  ⟨orMessage m e, (rejectLoginWithError_spec w p e m hslot hfresh).2.2.1,
    (rejectLoginWithError_spec w p e m hslot hfresh).1,
    (rejectLoginWithError_spec w p e m hslot hfresh).2.1⟩

theorem loginFinish_outcome (w : World) (uid : Option String) (o : LoginOracle)
    (p : Nat) (hslot : w.loginPromiseHandlers = some p)
    (hfresh : settledOutcome w p = none) :
    (∃ r, settledOutcome (loginFinish w uid o) p = some (.loginResolved r) ∧
      r.1.sessionKey = o.genKey) ∨
    (∃ m, settledOutcome (loginFinish w uid o) p = some (.rejected m) ∧
      (loginFinish w uid o).state.loginStatus = .error ∧
      (loginFinish w uid o).state.loginError = some m) := by
  unfold loginFinish
  rcases hp : o.prepareResponse with e | resp
  · simp only [hp]
    exact Or.inr (rejectLoginWithError_outcome _ p _ _ hslot hfresh)
  · simp only [hp]
    rcases hs : prepareShape uid resp with e | ⟨wa, as⟩
    · simp only [hs]
      exact Or.inr (rejectLoginWithError_outcome _ p _ _ hslot hfresh)
    · simp only [hs]
      exact onWebauthnSettled_none_outcome _ _ _ _ _ _ p hslot hfresh

theorem loginRun_outcome (w : World) (uid : Option String) (o : LoginOracle)
    (hfresh : settledOutcome w w.nextPid = none) :
    (∃ r, settledOutcome (loginRun w uid o).1 (loginRun w uid o).2 =
        some (.loginResolved r) ∧ r.1.sessionKey = o.genKey) ∨
    (∃ m, settledOutcome (loginRun w uid o).1 (loginRun w uid o).2 =
        some (.rejected m) ∧
      (loginRun w uid o).1.state.loginStatus = .error ∧
      (loginRun w uid o).1.state.loginError = some m) := by
  cases ha : w.state.anonymousActor with
  | none =>
    right
    have h := rejectLoginWithError_outcome
      { w with nextPid := w.nextPid + 1, loginPromiseHandlers := some w.nextPid }
      w.nextPid hookNotInitializedMsg none rfl hfresh
    simpa only [loginRun, loginStart, ha] using h
  | some u =>
    by_cases hst : w.state.prepareLoginStatus = PrepareLoginStatus.preparing
    · right
      have h := rejectLoginWithError_outcome
        { w with nextPid := w.nextPid + 1, loginPromiseHandlers := some w.nextPid }
        w.nextPid concurrentLoginMsg none rfl hfresh
      simpa only [loginRun, loginStart, ha, hst, if_true] using h
    · have h := loginFinish_outcome
        { w with
          state := updateState
            (updateState w.state
              { loginStatus := some LoginStatus.loggingIn, loginError := some none })
            { prepareLoginStatus := some PrepareLoginStatus.preparing,
              prepareLoginError := some none },
          nextPid := w.nextPid + 1, loginPromiseHandlers := some w.nextPid }
        uid o w.nextPid rfl hfresh
      simpa only [loginRun, loginStart, ha, hst, if_false, ite_false] using h

theorem loginRun_frame (w : World) (uid : Option String) (o : LoginOracle)
    (q : Nat) (hq : q ≠ w.nextPid) :
    settledOutcome (loginRun w uid o).1 q = settledOutcome w q := by
  have hne : ∀ w' : World, w'.loginPromiseHandlers = some w.nextPid →
      w'.loginPromiseHandlers ≠ some q := by
    intro w' h hc
    rw [h] at hc
    exact hq (Option.some.inj hc).symm
  cases ha : w.state.anonymousActor with
  | none =>
    have h := rejectLoginWithError_skips
      { w with nextPid := w.nextPid + 1, loginPromiseHandlers := some w.nextPid }
      q hookNotInitializedMsg none (hne _ rfl)
    simpa only [loginRun, loginStart, ha] using h
  | some u =>
    by_cases hst : w.state.prepareLoginStatus = PrepareLoginStatus.preparing
    · have h := rejectLoginWithError_skips
        { w with nextPid := w.nextPid + 1, loginPromiseHandlers := some w.nextPid }
        q concurrentLoginMsg none (hne _ rfl)
      simpa only [loginRun, loginStart, ha, hst, if_true] using h
    · have h := loginFinish_frame
        { w with
          state := updateState
            (updateState w.state
              { loginStatus := some LoginStatus.loggingIn, loginError := some none })
            { prepareLoginStatus := some PrepareLoginStatus.preparing,
              prepareLoginError := some none },
          nextPid := w.nextPid + 1, loginPromiseHandlers := some w.nextPid }
        uid o w.nextPid q rfl hq
      simpa only [loginRun, loginStart, ha, hst, if_false, ite_false] using h

theorem loginRun_nextPid (w : World) (uid : Option String) (o : LoginOracle) :
    (loginRun w uid o).1.nextPid = w.nextPid + 1 ∧
    (loginRun w uid o).2 = w.nextPid := by
  cases ha : w.state.anonymousActor with
  | none =>
    have h := (rejectLoginWithError_invariants
      { w with nextPid := w.nextPid + 1, loginPromiseHandlers := some w.nextPid }
      hookNotInitializedMsg none).1
    constructor
    · simpa only [loginRun, loginStart, ha] using h
    · simp only [loginRun, loginStart, ha]
  | some u =>
    by_cases hst : w.state.prepareLoginStatus = PrepareLoginStatus.preparing
    · have h := (rejectLoginWithError_invariants
        { w with nextPid := w.nextPid + 1, loginPromiseHandlers := some w.nextPid }
        concurrentLoginMsg none).1
      constructor
      · simpa only [loginRun, loginStart, ha, hst, if_true] using h
      · simp only [loginRun, loginStart, ha, hst, if_true]
    · have h := (loginFinish_invariants
        { w with
          state := updateState
            (updateState w.state
              { loginStatus := some LoginStatus.loggingIn, loginError := some none })
            { prepareLoginStatus := some PrepareLoginStatus.preparing,
              prepareLoginError := some none },
          nextPid := w.nextPid + 1, loginPromiseHandlers := some w.nextPid }
        uid o).1
      constructor
      · simpa only [loginRun, loginStart, ha, hst, if_false, ite_false] using h
      · simp only [loginRun, loginStart, ha, hst, if_false, ite_false]

theorem rejectLoginWithError_miss (w : World) (p : Nat) (e : String)
    (m : Option String) (hlslot : w.loginPromiseHandlers ≠ some p)
    (hfresh : settledOutcome w p = none) :
    settledOutcome (rejectLoginWithError w e m) p = none ∧
    (rejectLoginWithError w e m).state.loginStatus = .error ∧
    ∃ m', (rejectLoginWithError w e m).state.loginError = some m' :=
  ⟨(rejectLoginWithError_skips w p e m hlslot).trans hfresh,
    (rejectLoginWithError_state w e m).1, ⟨_, (rejectLoginWithError_state w e m).2⟩⟩

theorem onWebauthnSettled_pk_outcome (w : World) (a : Option Unit)
    (wa as : String) (uid : Option String) (spk : List Nat) (o : LoginOracle)
    (p : Nat) (hpkslot : w.loginWithPublicKeyPromiseHandlers = some p)
    (hfresh : settledOutcome w p = none)
    (hlslot : w.loginPromiseHandlers ≠ some p) :
    (∃ r, settledOutcome (onWebauthnSettled w a wa as uid (some spk) o) p =
        some (.pkResolved r)) ∨
    (settledOutcome (onWebauthnSettled w a wa as uid (some spk) o) p = none ∧
      (onWebauthnSettled w a wa as uid (some spk) o).state.loginStatus = .error ∧
      ∃ m, (onWebauthnSettled w a wa as uid (some spk) o).state.loginError = some m) := by
  unfold onWebauthnSettled
  cases a with
  | none => exact Or.inr (rejectLoginWithError_miss w p _ _ hlslot hfresh)
  | some u =>
    dsimp only
    rcases hcl : callLogin (some u) wa spk as uid o.loginResponse with e | lr
    · simp only [hcl]
      exact Or.inr (rejectLoginWithError_miss w p _ _ hlslot hfresh)
    · simp only [hcl, hpkslot]
      exact Or.inl ⟨lr, settledOutcome_settle_self w p _ hfresh⟩

theorem loginWithSessionKeyFinish_outcome (w : World) (spk : List Nat)
    (uid : Option String) (o : LoginOracle) (p : Nat)
    (hpkslot : w.loginWithPublicKeyPromiseHandlers = some p)
    (hfresh : settledOutcome w p = none)
    (hlslot : w.loginPromiseHandlers ≠ some p) :
    (∃ r, settledOutcome (loginWithSessionKeyFinish w spk uid o) p =
        some (.pkResolved r)) ∨
    (settledOutcome (loginWithSessionKeyFinish w spk uid o) p = none ∧
      (loginWithSessionKeyFinish w spk uid o).state.loginStatus = .error ∧
      ∃ m, (loginWithSessionKeyFinish w spk uid o).state.loginError = some m) := by
  unfold loginWithSessionKeyFinish
  rcases hp : o.prepareResponse with e | resp
  · simp only [hp]
    exact Or.inr (rejectLoginWithError_miss _ p _ _ hlslot hfresh)
  · simp only [hp]
    rcases hs : prepareShape uid resp with e | ⟨wa, as⟩
    · simp only [hs]
      exact Or.inr (rejectLoginWithError_miss _ p _ _ hlslot hfresh)
    · simp only [hs]
      exact onWebauthnSettled_pk_outcome _ _ _ _ _ _ _ p hpkslot hfresh hlslot

theorem loginWithSessionKeyRun_outcome (w : World) (spk : List Nat)
    (uid : Option String) (o : LoginOracle)
    (hfresh : settledOutcome w w.nextPid = none)
    (hlslot : w.loginPromiseHandlers ≠ some w.nextPid) :
    (∃ r, settledOutcome (loginWithSessionKeyRun w spk uid o).1
        (loginWithSessionKeyRun w spk uid o).2 = some (.pkResolved r)) ∨
    (settledOutcome (loginWithSessionKeyRun w spk uid o).1
        (loginWithSessionKeyRun w spk uid o).2 = none ∧
      (loginWithSessionKeyRun w spk uid o).1.state.loginStatus = .error ∧
      ∃ m, (loginWithSessionKeyRun w spk uid o).1.state.loginError = some m) := by
  cases ha : w.state.anonymousActor with
  | none =>
    have h := rejectLoginWithError_miss
      { w with nextPid := w.nextPid + 1, loginWithPublicKeyPromiseHandlers := some w.nextPid }
      w.nextPid hookNotInitializedMsg none hlslot hfresh
    exact Or.inr (by simpa only [loginWithSessionKeyRun, loginWithSessionKeyStart, ha] using h)
  | some u =>
    by_cases hst : w.state.prepareLoginStatus = PrepareLoginStatus.preparing
    · have h := rejectLoginWithError_miss
        { w with nextPid := w.nextPid + 1, loginWithPublicKeyPromiseHandlers := some w.nextPid }
        w.nextPid concurrentLoginMsg none hlslot hfresh
      exact Or.inr (by
        simpa only [loginWithSessionKeyRun, loginWithSessionKeyStart, ha, hst, if_true] using h)
    · have h := loginWithSessionKeyFinish_outcome
        { w with
          state := updateState
            (updateState w.state
              { loginStatus := some LoginStatus.loggingIn, loginError := some none })
            { prepareLoginStatus := some PrepareLoginStatus.preparing,
              prepareLoginError := some none },
          nextPid := w.nextPid + 1
          loginWithPublicKeyPromiseHandlers := some w.nextPid }
        spk uid o w.nextPid rfl hfresh hlslot
      simpa only [loginWithSessionKeyRun, loginWithSessionKeyStart, ha, hst, if_false,
        ite_false] using h


theorem onWebauthnSettled_pk_frame (w : World) (a : Option Unit)
    (wa as : String) (uid : Option String) (spk : List Nat) (o : LoginOracle)
    (q : Nat) (hq : w.loginWithPublicKeyPromiseHandlers ≠ some q)
    (hql : w.loginPromiseHandlers ≠ some q) :
    settledOutcome (onWebauthnSettled w a wa as uid (some spk) o) q =
      settledOutcome w q := by
  unfold onWebauthnSettled
  cases a with
  | none => exact rejectLoginWithError_skips w q _ _ hql
  | some u =>
    dsimp only
    rcases hcl : callLogin (some u) wa spk as uid o.loginResponse with e | lr
    · simp only [hcl]
      exact rejectLoginWithError_skips w q _ _ hql
    · simp only [hcl]
      cases hpk : w.loginWithPublicKeyPromiseHandlers with
      | none => rfl
      | some pid =>
        refine settledOutcome_settle_of_ne w pid q _ ?_
        intro hc
        exact hq (by rw [hpk, hc])

theorem loginWithSessionKeyFinish_frame (w : World) (spk : List Nat)
    (uid : Option String) (o : LoginOracle) (q : Nat)
    (hq : w.loginWithPublicKeyPromiseHandlers ≠ some q)
    (hql : w.loginPromiseHandlers ≠ some q) :
    settledOutcome (loginWithSessionKeyFinish w spk uid o) q =
      settledOutcome w q := by
  unfold loginWithSessionKeyFinish
  rcases hp : o.prepareResponse with e | resp
  · simp only [hp]
    exact rejectLoginWithError_skips _ q _ _ hql
  · simp only [hp]
    rcases hs : prepareShape uid resp with e | ⟨wa, as⟩
    · simp only [hs]
      exact rejectLoginWithError_skips _ q _ _ hql
    · simp only [hs]
      exact onWebauthnSettled_pk_frame _ _ _ _ _ _ _ q hq hql

theorem loginWithSessionKeyRun_frame (w : World) (spk : List Nat)
    (uid : Option String) (o : LoginOracle) (q : Nat) (hq : q ≠ w.nextPid)
    (hql : w.loginPromiseHandlers ≠ some q) :
    settledOutcome (loginWithSessionKeyRun w spk uid o).1 q =
      settledOutcome w q := by
  have hpk : ∀ w' : World, w'.loginWithPublicKeyPromiseHandlers = some w.nextPid →
      w'.loginWithPublicKeyPromiseHandlers ≠ some q := by
    intro w' h hc
    rw [h] at hc
    exact hq (Option.some.inj hc).symm
  cases ha : w.state.anonymousActor with
  | none =>
    have h := rejectLoginWithError_skips
      { w with nextPid := w.nextPid + 1, loginWithPublicKeyPromiseHandlers := some w.nextPid }
      q hookNotInitializedMsg none hql
    simpa only [loginWithSessionKeyRun, loginWithSessionKeyStart, ha] using h
  | some u =>
    by_cases hst : w.state.prepareLoginStatus = PrepareLoginStatus.preparing
    · have h := rejectLoginWithError_skips
        { w with nextPid := w.nextPid + 1, loginWithPublicKeyPromiseHandlers := some w.nextPid }
        q concurrentLoginMsg none hql
      simpa only [loginWithSessionKeyRun, loginWithSessionKeyStart, ha, hst, if_true] using h
    · have h := loginWithSessionKeyFinish_frame
        { w with
          state := updateState
            (updateState w.state
              { loginStatus := some LoginStatus.loggingIn, loginError := some none })
            { prepareLoginStatus := some PrepareLoginStatus.preparing,
              prepareLoginError := some none },
          nextPid := w.nextPid + 1
          loginWithPublicKeyPromiseHandlers := some w.nextPid }
        spk uid o q (hpk _ rfl) hql
      simpa only [loginWithSessionKeyRun, loginWithSessionKeyStart, ha, hst, if_false,
        ite_false] using h

/-! ## The ready world -/

theorem readyWorld_spec (st : Option SiweIdentityStorage) :
    (readyWorld st).state.anonymousActor = some () ∧
    (readyWorld st).state.prepareLoginStatus = .idle ∧
    (readyWorld st).loginPromiseHandlers = none ∧
    (readyWorld st).loginWithPublicKeyPromiseHandlers = none ∧
    (readyWorld st).settled = [] ∧
    (readyWorld st).nextPid = 0 ∧
    (readyWorld st).storage = st := by
  unfold readyWorld loadIdentityEffect initWorld initState
  cases h : loadIdentity st <;> simp [updateState]

/-- Decidable equality of `Except` results, for concrete evaluation. -/
instance {ε : Type u} {α : Type v} [DecidableEq ε] [DecidableEq α] :
    DecidableEq (Except ε α) := fun
  | .error a, .error b =>
    if h : a = b then .isTrue (by rw [h])
    else .isFalse (by intro hc; cases hc; exact h rfl)
  | .error _, .ok _ => .isFalse (by intro hc; cases hc)
  | .ok _, .error _ => .isFalse (by intro hc; cases hc)
  | .ok a, .ok b =>
    if h : a = b then .isTrue (by rw [h])
    else .isFalse (by intro hc; cases hc; exact h rfl)

/-! ## Concrete fixtures used by counterexamples and witnesses -/

/-- A concrete well-formed session keypair. -/
def exKey : Ed25519KeyPair := ⟨[1], [2]⟩

/-- A concrete signed delegation whose embedded public key is `exKey`'s. -/
def exSd : SignedDelegation := ⟨[3], ⟨[1], none, 5⟩⟩

/-- A concrete well-formed delegation chain. -/
def exChain : DelegationChainM := ⟨[exSd], [7]⟩

/-! ## C5 — persist/restore round trip -/

/-- C5 counterexample: the claim quantifies over every identifier, but the
identifier `""` is falsy in the `!s.uid` validity check of `loadIdentity`, so
`saveIdentity "" key chain` followed by `loadIdentity` fails with the
invalid-stored-state error instead of succeeding. -/
theorem C5_counterexample :
    loadIdentity (some (saveIdentity "" exKey exChain)) =
      .error .invalidStoredState := by
  decide

/-- C5 (amended): for every non-empty identifier `uid`, byte-valid session
keypair `k` and byte-valid delegation chain `c`, `saveIdentity uid k c`
followed by `loadIdentity` succeeds and returns the identifier `uid`, the
delegation identity composed of `k` and `c`, and a chain equal to `c`
(in particular its signature and public-key fields are byte-equal). -/
theorem C5_roundtrip (uid : String) (k : Ed25519KeyPair) (c : DelegationChainM)
    (huid : uid ≠ "") (hk : ValidKeyPair k) (hc : ValidChain c) :
    loadIdentity (some (saveIdentity uid k c)) = .ok (uid, ⟨k, c⟩, c) := by
  unfold loadIdentity saveIdentity
  simp only [chainFromJSON_chainToJSON c hc, keyFromJSON_keyToJSON k hk, if_neg huid]

/-- C5 witness: the round trip evaluated at a concrete non-empty identifier,
keypair and chain. -/
theorem C5_roundtrip_witness :
    ("alice" ≠ "" ∧ ValidKeyPair exKey ∧ ValidChain exChain) ∧
    loadIdentity (some (saveIdentity "alice" exKey exChain)) =
      .ok ("alice", ⟨exKey, exChain⟩, exChain) :=
  ⟨⟨by decide, by decide, by decide⟩,
    C5_roundtrip "alice" exKey exChain (by decide) (by decide) (by decide)⟩

/-! ## C6 — load-failure taxonomy and the initialization effect -/

/-- C6: `loadIdentity` fails with the no-stored-session error exactly when no
record is stored; every stored record that is missing one of the three fields
or whose key or chain material does not deserialize fails with a
corrupt-stored-session-class error; and on any load failure the engine
proceeds with `isInitializing = false`, no populated identity, identifier or
chain, and no user-facing error. -/
theorem C6_load_failure_taxonomy (stored : Option SiweIdentityStorage)
    (s : SiweIdentityStorage) :
    (loadIdentity stored = .error .noStoredIdentity ↔ stored = none) ∧
    ((s.uid = none ∨ s.sessionIdentity = none ∨ s.delegationChain = none ∨
      (∃ kj, s.sessionIdentity = some kj ∧ keyFromJSON kj = none) ∨
      (∃ cj, s.delegationChain = some cj ∧ chainFromJSON cj = none)) →
      ∃ e, loadIdentity (some s) = .error e ∧ e.isCorrupt = true) ∧
    (∀ e, loadIdentity stored = .error e →
      (loadIdentityEffect (initWorld stored)).state.isInitializing = false ∧
      (loadIdentityEffect (initWorld stored)).state.identity = none ∧
      (loadIdentityEffect (initWorld stored)).state.identityId = none ∧
      (loadIdentityEffect (initWorld stored)).state.delegationChain = none ∧
      (loadIdentityEffect (initWorld stored)).state.loginError = none ∧
      (loadIdentityEffect (initWorld stored)).state.prepareLoginError = none) := by
  refine ⟨?_, ?_, ?_⟩
  · constructor
    · intro h
      cases stored with
      | none => rfl
      | some s' =>
        exfalso
        unfold loadIdentity at h
        rcases hu : s'.uid with _ | uid <;> rcases hk : s'.sessionIdentity with _ | kj <;>
          rcases hc : s'.delegationChain with _ | cj <;>
          simp only [hu, hk, hc] at h <;> try exact absurd h (by simp)
        by_cases huid : uid = "" <;> simp only [huid, if_pos, if_neg, if_true, if_false] at h
        · exact absurd h (by simp)
        · rcases hcf : chainFromJSON cj with _ | d <;> simp only [hcf] at h
          · exact absurd h (by simp)
          · rcases hkf : keyFromJSON kj with _ | k <;> simp only [hkf] at h <;>
              exact absurd h (by simp)
    · intro h; subst h; rfl
  · intro hbad
    rcases hu : s.uid with _ | uid
    · exact ⟨.invalidStoredState, by simp [loadIdentity, hu], rfl⟩
    · rcases hk : s.sessionIdentity with _ | kj
      · exact ⟨.invalidStoredState, by simp [loadIdentity, hu, hk], rfl⟩
      · rcases hc : s.delegationChain with _ | cj
        · exact ⟨.invalidStoredState, by simp [loadIdentity, hu, hk, hc], rfl⟩
        · by_cases huid : uid = ""
          · exact ⟨.invalidStoredState, by simp [loadIdentity, hu, hk, hc, huid], rfl⟩
          · rcases hcf : chainFromJSON cj with _ | d
            · exact ⟨.chainDeserialization,
                by simp [loadIdentity, hu, hk, hc, huid, hcf], rfl⟩
            · rcases hkf : keyFromJSON kj with _ | k
              · exact ⟨.keyDeserialization,
                  by simp [loadIdentity, hu, hk, hc, huid, hcf, hkf], rfl⟩
              · exfalso
                rcases hbad with h | h | h | ⟨kj', hkj', hkf'⟩ | ⟨cj', hcj', hcf'⟩
                · exact absurd (hu ▸ h) (by simp)
                · exact absurd (hk ▸ h) (by simp)
                · exact absurd (hc ▸ h) (by simp)
                · rw [hk] at hkj'; cases hkj'; rw [hkf] at hkf'; cases hkf'
                · rw [hc] at hcj'; cases hcj'; rw [hcf] at hcf'; cases hcf'
  · intro e he
    unfold loadIdentityEffect initWorld initState
    rw [he]
    simp [updateState]

/-- C6 witness: a record missing the `delegationChain` field is classified as
corrupt, and loading it leaves the engine uninitialized-done with no identity. -/
theorem C6_load_failure_taxonomy_witness :
    (∃ e, loadIdentity (some ⟨some "alice", some (keyToJSON exKey), none⟩) =
        .error e ∧ e.isCorrupt = true) ∧
    (loadIdentityEffect (initWorld (some ⟨some "alice", some (keyToJSON exKey), none⟩))).state.isInitializing = false ∧
    (loadIdentityEffect (initWorld (some ⟨some "alice", some (keyToJSON exKey), none⟩))).state.identity = none := by
  have h := C6_load_failure_taxonomy (some ⟨some "alice", some (keyToJSON exKey), none⟩)
    ⟨some "alice", some (keyToJSON exKey), none⟩
  refine ⟨h.2.1 (Or.inr (Or.inr (Or.inl rfl))), ?_, ?_⟩
  · exact (h.2.2 .invalidStoredState (by decide)).1
  · exact (h.2.2 .invalidStoredState (by decide)).2.1

/-! ## C7 — clear/load -/

/-- C7: `clearIdentity` is an idempotent removal of the single stored record,
and after `clearIdentity` every `loadIdentity` fails with the
no-stored-session error, from every storage state. -/
theorem C7_clear_then_load (st : Option SiweIdentityStorage) :
    clearIdentity (clearIdentity st) = clearIdentity st ∧
    loadIdentity (clearIdentity st) = .error .noStoredIdentity :=
  ⟨rfl, rfl⟩

/-! ## C8 — chain construction (spec-modelled delegation codec) -/

/-- C8: `createDelegationChain` fails with `MalformedDelegation` exactly when
the public key embedded in the signed delegation differs from the session
public key that requested it, and on a match wraps the single signed
delegation into a chain rooted at the target root key. -/
theorem C8_buildChain (sd : SignedDelegation) (root spk : List Nat) :
    (createDelegationChain sd root spk = .error "MalformedDelegation" ↔
      sd.delegation.pubkey ≠ spk) ∧
    (sd.delegation.pubkey = spk →
      createDelegationChain sd root spk = .ok ⟨[sd], root⟩) := by
  unfold createDelegationChain
  by_cases h : sd.delegation.pubkey = spk <;> simp [h]

/-- C8 witness: a one-byte mismatch is rejected and the matching key is
wrapped, at concrete inputs. -/
theorem C8_buildChain_witness :
    (createDelegationChain exSd [7] [2] = .error "MalformedDelegation" ↔
      exSd.delegation.pubkey ≠ [2]) ∧
    (exSd.delegation.pubkey = [1] →
      createDelegationChain exSd [7] [1] = .ok ⟨[exSd], [7]⟩) :=
  ⟨(C8_buildChain exSd [7] [2]).1, (C8_buildChain exSd [7] [1]).2⟩

/-! ## C10 — frame of `clear()` -/

/-- C10: `clear()` resets both statuses to idle, clears both errors, the
identity, the identifier, the chain and the identity-bound actor, sets
`isInitializing` to `false`, and leaves `anonymousActor` unchanged, so a
subsequent `login()` does not terminate in its synchronous checks (in
particular it does not fail the missing-actor check) when the actor was
present. -/
theorem C10_clear_frame (w : World) (uid : Option String) :
    (clear w).state.anonymousActor = w.state.anonymousActor ∧
    (clear w).state.prepareLoginStatus = .idle ∧
    (clear w).state.loginStatus = .idle ∧
    (clear w).state.prepareLoginError = none ∧
    (clear w).state.loginError = none ∧
    (clear w).state.identity = none ∧
    (clear w).state.identityId = none ∧
    (clear w).state.delegationChain = none ∧
    (clear w).state.identityActor = none ∧
    (clear w).state.isInitializing = false ∧
    (w.state.anonymousActor = some () → (loginStart (clear w) uid).done = false) := by
  refine ⟨rfl, rfl, rfl, rfl, rfl, rfl, rfl, rfl, rfl, rfl, ?_⟩
  intro hactor
  unfold loginStart
  simp [clear, updateState, hactor]

/-- C10 witness: `clear` then `login` at a concrete world with the actor
present runs past the synchronous checks. -/
theorem C10_clear_frame_witness :
    (readyWorld none).state.anonymousActor = some () ∧
    (loginStart (clear (readyWorld none)) none).done = false :=
  ⟨by decide, (C10_clear_frame (readyWorld none) none).2.2.2.2.2.2.2.2.2.2 (by decide)⟩

def exKey2 : Ed25519KeyPair := ⟨[4], [5]⟩

def exSd2 : SignedDelegation := ⟨[6], ⟨[4], none, 5⟩⟩

def exOracle : LoginOracle where
  prepareResponse := .ok (.pair "asrt1" "st1")
  loginResponse := .Ok ⟨"alice", ⟨[7], 1000⟩⟩
  delegationResponse := .Ok exSd
  genKey := exKey

def exOracle2 : LoginOracle where
  prepareResponse := .ok (.pair "asrt2" "st2")
  loginResponse := .Ok ⟨"alice", ⟨[7], 1000⟩⟩
  delegationResponse := .Ok exSd2
  genKey := exKey2

def badOracle : LoginOracle :=
  { exOracle with loginResponse := .Err "invalid assertion" }

/-- With an actor present and the concurrency guard passing, a `login` call is
its synchronous prelude followed by the continuation. -/
theorem loginRun_eq_finish (w : World) (uid : Option String) (o : LoginOracle)
    (hactor : w.state.anonymousActor = some ())
    (hstatus : w.state.prepareLoginStatus ≠ PrepareLoginStatus.preparing) :
    loginRun w uid o =
      (loginFinish
        { w with
          state := updateState
            (updateState w.state
              { loginStatus := some LoginStatus.loggingIn, loginError := some none })
            { prepareLoginStatus := some PrepareLoginStatus.preparing,
              prepareLoginError := some none },
          nextPid := w.nextPid + 1, loginPromiseHandlers := some w.nextPid }
        uid o, w.nextPid) := by
  simp only [loginRun, loginStart, hactor, hstatus, if_false, ite_false]
  rfl

/-- C4: when the authority's submit returns `{Err:"invalid assertion"}` during
a login attempt whose prepare step succeeded, the login promise rejects with
message "Unable to login.", `loginStatus` becomes error with the same message
in `loginError`, and the stored session record (present or not) is unchanged
byte for byte — no persistence write occurs. -/
theorem C4_invalid_assertion (w : World) (uid : Option String) (o : LoginOracle)
    (hactor : w.state.anonymousActor = some ())
    (hstatus : w.state.prepareLoginStatus ≠ PrepareLoginStatus.preparing)
    (hfresh : settledOutcome w w.nextPid = none)
    (hresp : o.loginResponse = .Err "invalid assertion")
    (hshape : ∃ resp pr, o.prepareResponse = .ok resp ∧ prepareShape uid resp = .ok pr) :
    settledOutcome (loginRun w uid o).1 (loginRun w uid o).2 =
      some (.rejected "Unable to login.") ∧
    (loginRun w uid o).1.state.loginStatus = .error ∧
    (loginRun w uid o).1.state.loginError = some "Unable to login." ∧
    (loginRun w uid o).1.storage = w.storage := by
  obtain ⟨resp, ⟨wa, as⟩, hpr, hps⟩ := hshape
  rw [loginRun_eq_finish w uid o hactor hstatus]
  have hfin : loginFinish
      { w with
        state := updateState
          (updateState w.state
            { loginStatus := some LoginStatus.loggingIn, loginError := some none })
          { prepareLoginStatus := some PrepareLoginStatus.preparing,
            prepareLoginError := some none },
        nextPid := w.nextPid + 1, loginPromiseHandlers := some w.nextPid }
      uid o =
      rejectLoginWithError
        { w with
          state := updateState
            (updateState
              (updateState w.state
                { loginStatus := some LoginStatus.loggingIn, loginError := some none })
              { prepareLoginStatus := some PrepareLoginStatus.preparing,
                prepareLoginError := some none })
            { prepareLoginStatus := some PrepareLoginStatus.success },
          nextPid := w.nextPid + 1, loginPromiseHandlers := some w.nextPid }
        "invalid assertion" (some "Unable to login.") := by
    unfold loginFinish
    simp only [hpr, hps]
    rw [show (updateState
        (updateState
          (updateState w.state
            { loginStatus := some LoginStatus.loggingIn, loginError := some none })
          { prepareLoginStatus := some PrepareLoginStatus.preparing,
            prepareLoginError := some none })
        { prepareLoginStatus := some PrepareLoginStatus.success }).anonymousActor =
      some () from hactor]
    unfold onWebauthnSettled
    dsimp only
    simp only [callLogin, hresp]
  rw [hfin]
  have hspec := rejectLoginWithError_spec
    { w with
      state := updateState
        (updateState
          (updateState w.state
            { loginStatus := some LoginStatus.loggingIn, loginError := some none })
          { prepareLoginStatus := some PrepareLoginStatus.preparing,
            prepareLoginError := some none })
        { prepareLoginStatus := some PrepareLoginStatus.success },
      nextPid := w.nextPid + 1, loginPromiseHandlers := some w.nextPid }
    w.nextPid "invalid assertion" (some "Unable to login.") rfl hfresh
  have horm : orMessage (some "Unable to login.") "invalid assertion" = "Unable to login." := by
    decide
  rw [horm] at hspec
  exact ⟨hspec.2.2.1, hspec.1, hspec.2.1, hspec.2.2.2⟩


def c1FirstStart : LoginStartResult := loginStart (readyWorld none) (some "alice")

def c1SecondStart : LoginStartResult := loginStart c1FirstStart.w (some "alice")

def c1FinalWorld : World := loginFinish c1SecondStart.w (some "alice") exOracle

/-- C1 counterexample: a second `login()` while the first attempt is in its
preparing phase has its promise rejected with the concurrent-login error, but
the first attempt's promise does not settle with the first attempt's outcome:
after the first attempt finishes (here with a fully successful oracle), the
first promise is still unsettled, because the second call overwrote the shared
promise-handle slot and the first attempt's terminal resolve hit the second
call's already-settled promise. -/
theorem C1_counterexample :
    c1SecondStart.done = true ∧
    settledOutcome c1FinalWorld c1SecondStart.pid =
      some (.rejected concurrentLoginMsg) ∧
    settledOutcome c1FinalWorld c1FirstStart.pid = none := by
  decide

/-- C1 (amended): if `login()` is called a second time while the first
attempt's `prepareLoginStatus` is "preparing", the second call's promise is
immediately rejected with the concurrent-login error; but the second call
overwrites the shared `loginPromiseHandlers` slot, so the first attempt's
promise never settles, whatever the first attempt's oracle would have produced. -/
theorem C1_amended (o : LoginOracle) (uid1 uid2 : Option String) :
    let r1 := loginStart (readyWorld none) uid1
    let r2 := loginStart r1.w uid2
    let wf := loginFinish r2.w uid1 o
    r1.done = false ∧ r2.done = true ∧
    settledOutcome r2.w r2.pid = some (.rejected concurrentLoginMsg) ∧
    r2.w.loginPromiseHandlers = some r2.pid ∧
    settledOutcome wf r1.pid = none := by
  intro r1 r2 wf
  refine ⟨rfl, rfl, rfl, rfl, ?_⟩
  have hframe := loginFinish_frame r2.w uid1 o r2.pid r1.pid rfl Nat.zero_ne_one
  exact hframe.trans rfl

def c2Run : World × Nat :=
  loginWithSessionKeyRun (readyWorld none) [9] (some "alice") badOracle

/-- C2 counterexample: a `loginWithSessionKey` attempt whose submit is refused
updates `loginStatus`/`loginError` but leaves its own returned promise pending
forever — `rejectLoginWithError` rejects the `login` slot, not the
`loginWithSessionKey` slot. -/
theorem C2_counterexample :
    c2Run.1.state.loginStatus = .error ∧
    c2Run.1.state.loginError = some "Login error with customSessionPublicKey." ∧
    settledOutcome c2Run.1 c2Run.2 = none := by
  decide

/-- C2 (amended): every failure path of an active `login()` attempt produces
both signals in agreement — the attempt's promise is rejected (never left
pending) with the same error that populates `loginError` while `loginStatus`
becomes error; but for `loginWithSessionKey()`, failure paths update the state
signals while rejecting through the shared helper aimed at `login`'s slot, so
the promise returned by the failing `loginWithSessionKey` call is left
pending. -/
theorem C2_amended (w : World) (uid : Option String) (spk : List Nat)
    (o : LoginOracle) (hfresh : settledOutcome w w.nextPid = none)
    (hlslot : w.loginPromiseHandlers ≠ some w.nextPid) :
    (let p := loginRun w uid o
     (∃ r, settledOutcome p.1 p.2 = some (.loginResolved r)) ∨
     (∃ m, settledOutcome p.1 p.2 = some (.rejected m) ∧
       p.1.state.loginStatus = .error ∧ p.1.state.loginError = some m)) ∧
    (let res := loginWithSessionKeyRun w spk uid o
     (∃ r, settledOutcome res.1 res.2 = some (.pkResolved r)) ∨
     (settledOutcome res.1 res.2 = none ∧ res.1.state.loginStatus = .error ∧
       ∃ m, res.1.state.loginError = some m)) := by
  constructor
  · rcases loginRun_outcome w uid o hfresh with ⟨r, hr, _⟩ | h
    · exact Or.inl ⟨r, hr⟩
    · exact Or.inr h
  · exact loginWithSessionKeyRun_outcome w spk uid o hfresh hlslot

/-- C2 witness: the amended statement evaluated at the ready world with a
successful oracle. -/
theorem C2_amended_witness :
    (settledOutcome (readyWorld none) (readyWorld none).nextPid = none ∧
      (readyWorld none).loginPromiseHandlers ≠ some (readyWorld none).nextPid) ∧
    (let p := loginRun (readyWorld none) (some "alice") exOracle
     (∃ r, settledOutcome p.1 p.2 = some (.loginResolved r)) ∨
     (∃ m, settledOutcome p.1 p.2 = some (.rejected m) ∧
       p.1.state.loginStatus = .error ∧ p.1.state.loginError = some m)) ∧
    (let res := loginWithSessionKeyRun (readyWorld none) [9] (some "alice") exOracle
     (∃ r, settledOutcome res.1 res.2 = some (.pkResolved r)) ∨
     (settledOutcome res.1 res.2 = none ∧ res.1.state.loginStatus = .error ∧
       ∃ m, res.1.state.loginError = some m)) :=
  ⟨⟨by decide, by decide⟩,
    C2_amended (readyWorld none) (some "alice") [9] exOracle (by decide) (by decide)⟩

def c3LoginStart : LoginStartResult := loginStart (readyWorld none) none

def c3PkStart : LoginStartResult := loginWithSessionKeyStart c3LoginStart.w [9] none

/-- C3 counterexample: rejecting a `loginWithSessionKey` attempt (here via the
concurrency guard while a `login` attempt is preparing) settles the pending
promise created by `login()` and leaves the `loginWithSessionKey` attempt's
own promise unsettled. -/
theorem C3_counterexample :
    settledOutcome c3PkStart.w c3LoginStart.pid =
      some (.rejected concurrentLoginMsg) ∧
    settledOutcome c3PkStart.w c3PkStart.pid = none := by
  decide

/-- The promise a `loginWithSessionKey` call returns is the world's next
fresh id. -/
theorem loginWithSessionKeyRun_pid (w : World) (spk : List Nat)
    (uid : Option String) (o : LoginOracle) :
    (loginWithSessionKeyRun w spk uid o).2 = w.nextPid := by
  cases ha : w.state.anonymousActor with
  | none => simp only [loginWithSessionKeyRun, loginWithSessionKeyStart, ha]
  | some u =>
    by_cases hst : w.state.prepareLoginStatus = PrepareLoginStatus.preparing
    · simp only [loginWithSessionKeyRun, loginWithSessionKeyStart, ha, hst, if_true]
    · simp only [loginWithSessionKeyRun, loginWithSessionKeyStart, ha, hst, if_false,
        ite_false]

/-- C3 (amended): `loginWithSessionKey` tracks its promise in the separate
`loginWithPublicKeyPromiseHandlers` slot and the success path resolves that
attempt's own promise; promises other than its own and the one held in
`login`'s slot are never settled by the attempt; but on every error path the
shared reject helper targets `login`'s slot, so the attempt's own promise is
left pending (and a pending `login` promise can be settled instead, as the
counterexample shows). -/
theorem C3_amended (w : World) (spk : List Nat) (uid : Option String)
    (o : LoginOracle) (hfresh : settledOutcome w w.nextPid = none)
    (hlslot : w.loginPromiseHandlers = none) :
    let res := loginWithSessionKeyRun w spk uid o
    ((∃ r, settledOutcome res.1 res.2 = some (.pkResolved r)) ∨
     (settledOutcome res.1 res.2 = none ∧ res.1.state.loginStatus = .error ∧
       ∃ m, res.1.state.loginError = some m)) ∧
    (∀ q, q ≠ res.2 → settledOutcome res.1 q = settledOutcome w q) := by
  intro res
  have hne : w.loginPromiseHandlers ≠ some w.nextPid := by
    rw [hlslot]; exact fun h => Option.noConfusion h
  constructor
  · exact loginWithSessionKeyRun_outcome w spk uid o hfresh hne
  · intro q hq
    have hpid := loginWithSessionKeyRun_pid w spk uid o
    refine loginWithSessionKeyRun_frame w spk uid o q ?_ ?_
    · rw [← hpid]; exact hq
    · rw [hlslot]; exact fun h => Option.noConfusion h

/-- C3 witness: the amended statement evaluated at the ready world with a
successful oracle. -/
theorem C3_amended_witness :
    (settledOutcome (readyWorld none) (readyWorld none).nextPid = none ∧
      (readyWorld none).loginPromiseHandlers = none) ∧
    (let res := loginWithSessionKeyRun (readyWorld none) [9] (some "alice") exOracle
     ((∃ r, settledOutcome res.1 res.2 = some (.pkResolved r)) ∨
      (settledOutcome res.1 res.2 = none ∧ res.1.state.loginStatus = .error ∧
        ∃ m, res.1.state.loginError = some m)) ∧
     (∀ q, q ≠ res.2 → settledOutcome res.1 q = settledOutcome (readyWorld none) q)) :=
  ⟨⟨by decide, by decide⟩,
    C3_amended (readyWorld none) [9] (some "alice") exOracle (by decide) (by decide)⟩


/-- C9: the session keypair inside the identity resolved by each successful
`login()` attempt is exactly the keypair generated by that attempt's
`Ed25519KeyIdentity.generate()` call — never cached, never taken from state or
a prior attempt — so for two sequential attempts whose generator draws differ
(cryptographic randomness of `generate`), the resulting session keys differ. -/
theorem C9_fresh_session_keys (w : World) (uid1 uid2 : Option String)
    (o1 o2 : LoginOracle) (hsettled : w.settled = []) :
    let p1 := loginRun w uid1 o1
    let p2 := loginRun p1.1 uid2 o2
    ∀ r1 r2, settledOutcome p2.1 p1.2 = some (.loginResolved r1) →
      settledOutcome p2.1 p2.2 = some (.loginResolved r2) →
      r1.1.sessionKey = o1.genKey ∧ r2.1.sessionKey = o2.genKey ∧
      (o1.genKey ≠ o2.genKey → r1.1.sessionKey ≠ r2.1.sessionKey) := by
  intro p1 p2 r1 r2 h1 h2
  have hfresh1 : settledOutcome w w.nextPid = none := by
    simp [settledOutcome, hsettled]
  have hn1 := loginRun_nextPid w uid1 o1
  have hn2 := loginRun_nextPid p1.1 uid2 o2
  have hne : w.nextPid ≠ p1.1.nextPid := by
    rw [hn1.1]; omega
  have hframe2 : settledOutcome p2.1 p1.2 = settledOutcome p1.1 p1.2 := by
    have := loginRun_frame p1.1 uid2 o2 p1.2 (by rw [hn1.2, hn1.1]; omega)
    exact this
  have hfresh2 : settledOutcome p1.1 p1.1.nextPid = none := by
    rw [hn1.1]
    have hfr := loginRun_frame w uid1 o1 (w.nextPid + 1) (by omega)
    have : settledOutcome w (w.nextPid + 1) = none := by
      simp [settledOutcome, hsettled]
    exact hfr.trans this
  have hkey1 : r1.1.sessionKey = o1.genKey := by
    have h1' : settledOutcome p1.1 p1.2 = some (.loginResolved r1) :=
      hframe2 ▸ h1
    rcases loginRun_outcome w uid1 o1 hfresh1 with ⟨r, hr, hk⟩ | ⟨m, hm, _⟩
    · rw [hr] at h1'
      cases h1'
      exact hk
    · rw [hm] at h1'
      cases h1'
  have hkey2 : r2.1.sessionKey = o2.genKey := by
    rcases loginRun_outcome p1.1 uid2 o2 hfresh2 with ⟨r, hr, hk⟩ | ⟨m, hm, _⟩
    · rw [hr] at h2
      cases h2
      exact hk
    · rw [hm] at h2
      cases h2
  exact ⟨hkey1, hkey2, fun hneq hc => hneq (hkey1 ▸ hkey2 ▸ hc)⟩

def c9Res1 : DelegationIdentityM × String := (⟨exKey, ⟨[exSd], [7]⟩⟩, "alice")

def c9Res2 : DelegationIdentityM × String := (⟨exKey2, ⟨[exSd2], [7]⟩⟩, "alice")

/-- C9 witness: two concrete successful runs with distinct generated keys
yield identities with those distinct keys. -/
theorem C9_fresh_session_keys_witness :
    (readyWorld none).settled = [] ∧
    (c9Res1.1.sessionKey = exOracle.genKey ∧ c9Res2.1.sessionKey = exOracle2.genKey ∧
      (exOracle.genKey ≠ exOracle2.genKey →
        c9Res1.1.sessionKey ≠ c9Res2.1.sessionKey)) :=
  ⟨rfl, C9_fresh_session_keys (readyWorld none) (some "alice") (some "alice")
    exOracle exOracle2 rfl c9Res1 c9Res2 (by decide) (by decide)⟩

/-- C4 witness: the invalid-assertion scenario evaluated with a prior stored
record, which is left untouched. -/
theorem C4_invalid_assertion_witness :
    ((readyWorld (some (saveIdentity "bob" exKey exChain))).state.anonymousActor = some () ∧
     (readyWorld (some (saveIdentity "bob" exKey exChain))).state.prepareLoginStatus ≠
       PrepareLoginStatus.preparing ∧
     settledOutcome (readyWorld (some (saveIdentity "bob" exKey exChain)))
       (readyWorld (some (saveIdentity "bob" exKey exChain))).nextPid = none ∧
     badOracle.loginResponse = .Err "invalid assertion" ∧
     (∃ resp pr, badOracle.prepareResponse = .ok resp ∧
       prepareShape (some "alice") resp = .ok pr)) ∧
    (settledOutcome
        (loginRun (readyWorld (some (saveIdentity "bob" exKey exChain)))
          (some "alice") badOracle).1
        (loginRun (readyWorld (some (saveIdentity "bob" exKey exChain)))
          (some "alice") badOracle).2 = some (.rejected "Unable to login.") ∧
      (loginRun (readyWorld (some (saveIdentity "bob" exKey exChain)))
        (some "alice") badOracle).1.state.loginStatus = .error ∧
      (loginRun (readyWorld (some (saveIdentity "bob" exKey exChain)))
        (some "alice") badOracle).1.state.loginError = some "Unable to login." ∧
      (loginRun (readyWorld (some (saveIdentity "bob" exKey exChain)))
        (some "alice") badOracle).1.storage =
        (readyWorld (some (saveIdentity "bob" exKey exChain))).storage) :=
  ⟨⟨by decide, by decide, by decide, rfl, ⟨.pair "asrt1" "st1", ("asrt1", "st1"), rfl, rfl⟩⟩,
    C4_invalid_assertion (readyWorld (some (saveIdentity "bob" exKey exChain)))
      (some "alice") badOracle (by decide) (by decide) (by decide) rfl
      ⟨.pair "asrt1" "st1", ("asrt1", "st1"), rfl, rfl⟩⟩

end Siwp
